import Mathlib

/-!
# v8worker2, Windows build (`worker_win.go`)

A shallow embedding of the Go file `worker_win.go`: the package globals
(`workerTableLock`, `workerTable`, `workerTableNextAvailable`), the two
structs `worker` and `Worker`, and the functions `Version`, `SetFlags`,
`ResolveModule`, `New`, `Dispose`, `Load`, `LoadModule`, `SendBytes`,
`TerminateExecution`.

Conventions of the embedding:

* package globals are an explicit record `Globals` threaded through `New`,
  the only function of the file that touches them;
* a `*Worker` handle is passed by value and the mutated handle is returned;
* a Go `error` is `Option String`, with `none` for `nil`;
* a Go `panic` is reported in the outcome next to the state the handle is
  left in;
* `sync.Mutex.Lock` on a mutex that is already held does not return (no
  statement of the file ever calls `Unlock`), which is `none` here;
* a `[]byte` is a `List Nat`; Go `int` values are `Int` (no arithmetic is
  performed on them in this file).
-/

set_option linter.unusedVariables false

namespace V8Worker2

/-! ## Data model -/

/-- Go `type workerTableIndex int`. -/
abbrev workerTableIndex := Int

/-- Go `type ReceiveMessageCallback func(msg []byte) []byte`. -/
abbrev ReceiveMessageCallback := List Nat → List Nat

/-- Go `type ModuleResolverCallback func(moduleName, referrerName string) int`. -/
abbrev ModuleResolverCallback := String → String → Int

/-- Go `error`: `none` is `nil`. -/
abbrev GoError := Option String

/-- Internal worker struct. `cWorker` is the `*C.worker` pointer, `none` for
the nil pointer. -/
structure worker where
  cWorker : Option Nat
  cb : ReceiveMessageCallback
  tableIndex : workerTableIndex

/-- Public wrapper `Worker`: the embedded `*worker` and the `disposed` flag. -/
structure Worker where
  worker : worker
  disposed : Bool

/-- Package-level variables of the file. `workerTableLock` is `true` while the
mutex is held. `workerTable` is the Go map, as an association list. -/
structure Globals where
  workerTableLock : Bool
  workerTable : List (workerTableIndex × worker)
  workerTableNextAvailable : workerTableIndex

/-- Values of the package-level variables at program start: an unlocked mutex,
`make(map[workerTableIndex]*worker)` and `0`. -/
def initGlobals : Globals :=
  { workerTableLock := false, workerTable := [], workerTableNextAvailable := 0 }

/-- Map read `workerTable[idx]`: `none` when the key is absent. -/
def Globals.lookup (g : Globals) (idx : workerTableIndex) : Option worker :=
  g.workerTable.lookup idx

/-! ## Operations -/

/-- Go `Version`. -/
def Version : String := "6.6.164-v8worker2"

/-- Go `SetFlags`: the body is `return args`. -/
def SetFlags (args : List String) : List String := args

/-- Go `ResolveModule`: the body is `return 0`. The two `*C.char` parameters are
the C strings they point to. -/
def ResolveModule (moduleSpecifier referrerSpecifier : String) (resolverToken : Int) : Int := 0

/-- Outcome of a `Dispose` call: the handle as the call leaves it, and the
panic value when the call panicked. -/
structure DisposeOutcome where
  state : Worker
  panicked : Option String

/-- Go `(*Worker).Dispose`: panics when `w.disposed`, before any write;
otherwise sets `w.disposed = true`. -/
def Worker.Dispose (w : Worker) : DisposeOutcome :=
  if w.disposed then
    { state := w, panicked := some "worker already disposed" }
  else
    { state := { w with disposed := true }, panicked := none }

/-- What `New` hands back: the returned handle, the closure it passed to
`runtime.SetFinalizer` for that handle, and the package globals afterwards. -/
structure NewResult where
  externalWorker : Worker
  finalizer : Worker → DisposeOutcome
  globals : Globals

/-- Go `New`. `workerTableLock.Lock()` comes first: on a held mutex the call
does not return (`none`). Otherwise the mutex becomes held, the `worker` and
the `Worker` are built, the finalizer closure is registered and the handle is
returned. The body contains no `Unlock`, no write to `workerTable` and no
write to `workerTableNextAvailable`. -/
def New (cb : ReceiveMessageCallback) (g : Globals) : Option NewResult :=
  if g.workerTableLock then
    none
  else
    let g1 : Globals := { g with workerTableLock := true }
    let w : worker := { cWorker := none, cb := cb, tableIndex := g1.workerTableNextAvailable }
    let externalWorker : Worker := { worker := w, disposed := false }
    some { externalWorker := externalWorker
           finalizer := fun final_worker => final_worker.Dispose
           globals := g1 }

/-- Outcome of an operation entering the worker: the returned `error`, the
arguments with which the body invoked the worker's receive callback `cb`, and
the arguments with which it invoked the module resolver, both in call order. -/
structure OpOutcome where
  err : GoError
  cbCalls : List (List Nat)
  resolveCalls : List (String × String)

/-- Go `(*Worker).Load`: the body is `return nil`. -/
def Worker.Load (w : Worker) (scriptName code : String) : OpOutcome :=
  { err := none, cbCalls := [], resolveCalls := [] }

/-- Go `(*Worker).LoadModule`: the body is `return nil`. -/
def Worker.LoadModule (w : Worker) (scriptName code : String)
    (resolve : ModuleResolverCallback) : OpOutcome :=
  { err := none, cbCalls := [], resolveCalls := [] }

/-- Go `(*Worker).SendBytes`: the body is `return nil`. -/
def Worker.SendBytes (w : Worker) (msg : List Nat) : OpOutcome :=
  { err := none, cbCalls := [], resolveCalls := [] }

/-- Go `(*Worker).TerminateExecution`: the body is empty. -/
def Worker.TerminateExecution (w : Worker) : Worker := w

/-! ## Derived notions used in the statements -/

/-- Handle state after `n` successive `Dispose` calls on `w`. -/
def disposeTimes : Nat → Worker → Worker
  | 0, w => w
  | n + 1, w => disposeTimes n w.Dispose.state

/-- The two ways a handle gets released: the caller's explicit `Dispose`, and
the finalizer registered by `New`. -/
inductive ReleasePath where
  | explicitDispose
  | finalizerRun
  deriving DecidableEq, Repr

/-- Run one release path on a handle; `fin` is the registered finalizer. -/
def runPath (fin : Worker → DisposeOutcome) : ReleasePath → Worker → DisposeOutcome
  | .explicitDispose, w => w.Dispose
  | .finalizerRun, w => fin w

/-- The release step: the `disposed` flag goes from `false` to `true`. -/
def releaseStep (before : Worker) (out : DisposeOutcome) : Bool :=
  !before.disposed && out.state.disposed

/-- Number of release steps performed when the paths of `ps` run in that order
on `w`, each on the handle as the previous one left it. -/
def releaseCount (fin : Worker → DisposeOutcome) : List ReleasePath → Worker → Nat
  | [], _ => 0
  | p :: ps, w =>
    (if releaseStep w (runPath fin p w) then 1 else 0)
      + releaseCount fin ps (runPath fin p w).state

/-- What the documentation of `SetFlags` describes: the arguments with the
flags recognised by the engine removed, the others kept in order. The set of
recognised flags belongs to the engine and is a parameter. -/
def SetFlags_spec (recognized : String → Bool) (args : List String) : List String :=
  args.filter (fun a => !recognized a)

/-- Sample receive callback: replies with the message reversed. -/
def sampleCb : ReceiveMessageCallback := fun msg => msg.reverse

/-- The result of the first `New sampleCb` of a process. -/
def sampleNew : NewResult :=
  { externalWorker := { worker := { cWorker := none, cb := sampleCb, tableIndex := 0 }
                        disposed := false }
    finalizer := fun final_worker => final_worker.Dispose
    globals := { workerTableLock := true, workerTable := [], workerTableNextAvailable := 0 } }

/-- Sample recogniser for `SetFlags_spec`: only `--known-engine-flag=1`. -/
def knownEngineFlag (a : String) : Bool := a == "--known-engine-flag=1"

/-! ## Shared lemmas -/

theorem New_init_sample : New sampleCb initGlobals = some sampleNew := rfl

theorem New_unlocked (cb : ReceiveMessageCallback) (g : Globals)
    (h : g.workerTableLock = false) :
    New cb g = some
      { externalWorker :=
          { worker := { cWorker := none, cb := cb, tableIndex := g.workerTableNextAvailable }
            disposed := false }
        finalizer := fun final_worker => final_worker.Dispose
        globals := { g with workerTableLock := true } } := by
  simp [New, h]

theorem New_locked (cb : ReceiveMessageCallback) (g : Globals)
    (h : g.workerTableLock = true) : New cb g = none := by
  simp [New, h]

/-- Shape of every result of `New`. -/
theorem New_some_shape (cb : ReceiveMessageCallback) (g : Globals) (r : NewResult)
    (h : New cb g = some r) :
    g.workerTableLock = false ∧
    r.externalWorker =
      { worker := { cWorker := none, cb := cb, tableIndex := g.workerTableNextAvailable }
        disposed := false } ∧
    r.finalizer = (fun final_worker => final_worker.Dispose) ∧
    r.globals = { g with workerTableLock := true } := by
  cases hl : g.workerTableLock with
  | true => rw [New_locked cb g hl] at h; cases h
  | false =>
    rw [New_unlocked cb g hl] at h
    cases h
    exact ⟨rfl, rfl, rfl, rfl⟩

theorem Dispose_of_active (w : Worker) (h : w.disposed = false) :
    w.Dispose = { state := { w with disposed := true }, panicked := none } := by
  simp [Worker.Dispose, h]

theorem Dispose_of_disposed (w : Worker) (h : w.disposed = true) :
    w.Dispose = { state := w, panicked := some "worker already disposed" } := by
  simp [Worker.Dispose, h]

theorem Dispose_state_disposed (w : Worker) : w.Dispose.state.disposed = true := by
  cases h : w.disposed with
  | true => rw [Dispose_of_disposed w h]; exact h
  | false => rw [Dispose_of_active w h]

theorem Dispose_state_worker (w : Worker) : w.Dispose.state.worker = w.worker := by
  cases h : w.disposed with
  | true => rw [Dispose_of_disposed w h]
  | false => rw [Dispose_of_active w h]

/-- `SetFlags` is the identity on every argument list. -/
theorem SetFlags_id (args : List String) : SetFlags args = args := rfl

theorem New_holds_lock (cb : ReceiveMessageCallback) (g : Globals) (r : NewResult)
    (h : New cb g = some r) : r.globals.workerTableLock = true := by
  obtain ⟨_, _, _, hg⟩ := New_some_shape cb g r h
  rw [hg]

theorem New_keeps_next (cb : ReceiveMessageCallback) (g : Globals) (r : NewResult)
    (h : New cb g = some r) :
    r.globals.workerTableNextAvailable = g.workerTableNextAvailable ∧
    r.externalWorker.worker.tableIndex = g.workerTableNextAvailable := by
  obtain ⟨_, hw, _, hg⟩ := New_some_shape cb g r h
  rw [hg, hw]
  exact ⟨rfl, rfl⟩

theorem New_keeps_table (cb : ReceiveMessageCallback) (g : Globals) (r : NewResult)
    (h : New cb g = some r) : r.globals.workerTable = g.workerTable := by
  obtain ⟨_, _, _, hg⟩ := New_some_shape cb g r h
  rw [hg]

theorem disposeTimes_succ_disposed (n : Nat) (w : Worker) :
    (disposeTimes (n + 1) w).disposed = true := by
  induction n generalizing w with
  | zero => exact Dispose_state_disposed w
  | succ k ih => exact ih w.Dispose.state

theorem disposeTimes_succ_eq (n : Nat) (w : Worker) :
    disposeTimes (n + 1) w = w.Dispose.state := by
  induction n generalizing w with
  | zero => rfl
  | succ k ih =>
    show disposeTimes (k + 1) w.Dispose.state = w.Dispose.state
    rw [ih w.Dispose.state, Dispose_of_disposed _ (Dispose_state_disposed w)]

/-! ## Registry: indices, registration, lock -/

/-- C1, the code at two consecutive `New` calls from the initial globals: the
first call returns a handle with `tableIndex` 0 and leaves
`workerTableNextAvailable` at 0; the second call does not return, because the
first left `workerTableLock` held; and were the lock released in between, the
second handle would carry the same `tableIndex` as the first. -/
theorem New_twice_blocks_and_index_not_advanced (cb1 cb2 : ReceiveMessageCallback) :
    ∃ r1 : NewResult,
      New cb1 initGlobals = some r1 ∧
      r1.externalWorker.worker.tableIndex = 0 ∧
      r1.globals.workerTableNextAvailable = 0 ∧
      New cb2 r1.globals = none ∧
      ∃ r2 : NewResult,
        New cb2 { r1.globals with workerTableLock := false } = some r2 ∧
        r2.externalWorker.worker.tableIndex = r1.externalWorker.worker.tableIndex :=
  ⟨_, New_unlocked cb1 initGlobals rfl, rfl, rfl, rfl, _, rfl, rfl⟩

/-- C4, the code at `New cb` from the initial globals: the returned handle is
not disposed and its worker stores `cb`, but `workerTable` is still empty, so
the lookup by the handle's `tableIndex` finds nothing. -/
theorem New_does_not_register (cb : ReceiveMessageCallback) :
    ∃ r : NewResult,
      New cb initGlobals = some r ∧
      r.externalWorker.disposed = false ∧
      r.externalWorker.worker.cb = cb ∧
      r.globals.workerTable = [] ∧
      r.globals.lookup r.externalWorker.worker.tableIndex = none :=
  ⟨_, New_unlocked cb initGlobals rfl, rfl, rfl, rfl, rfl⟩

/-- C10, the code at `New cb` from the initial globals: `workerTableLock` is
unheld before the call and held after it returns, and every further `New`
then fails to acquire it. -/
theorem New_returns_with_lock_held (cb : ReceiveMessageCallback) :
    initGlobals.workerTableLock = false ∧
    ∃ r : NewResult,
      New cb initGlobals = some r ∧
      r.globals.workerTableLock = true ∧
      ∀ cb2 : ReceiveMessageCallback, New cb2 r.globals = none :=
  ⟨rfl, _, New_unlocked cb initGlobals rfl, rfl, fun _ => rfl⟩

/-! ## Flags and module resolution -/

/-- C5, the code at `["--foo", "--known-engine-flag=1", "--bar"]`: `SetFlags`
returns the three arguments unchanged, where removing the recognised flag
gives `["--foo", "--bar"]`. -/
theorem SetFlags_keeps_recognized_flag :
    SetFlags ["--foo", "--known-engine-flag=1", "--bar"]
      = ["--foo", "--known-engine-flag=1", "--bar"] ∧
    SetFlags_spec knownEngineFlag ["--foo", "--known-engine-flag=1", "--bar"]
      = ["--foo", "--bar"] ∧
    SetFlags ["--foo", "--known-engine-flag=1", "--bar"] ≠ ["--foo", "--bar"] := by
  refine ⟨rfl, by decide, ?_⟩
  intro h
  have hlen := congrArg List.length h
  simp [SetFlags] at hlen

/-- C6, counterexample: in the first process state after one `New` and its
`Dispose`, the tokens 0 (the disposed worker's index) and 7 (never issued)
have no registry entry, and `ResolveModule` returns for both a token that is
not negative. -/
theorem ResolveModule_stale_token_counterexample :
    New sampleCb initGlobals = some sampleNew ∧
    sampleNew.externalWorker.Dispose.state.disposed = true ∧
    sampleNew.globals.lookup 0 = none ∧
    sampleNew.globals.lookup 7 = none ∧
    ¬ (ResolveModule "./dep.js" "main.js" 0 < 0) ∧
    ¬ (ResolveModule "./dep.js" "main.js" 7 < 0) := by
  refine ⟨rfl, rfl, rfl, rfl, ?_, ?_⟩ <;> simp [ResolveModule]

/-- C6, amended: for every specifier, referrer and resolver token, with or
without a live registry entry, `ResolveModule` returns 0, a non-negative
token. -/
theorem ResolveModule_always_zero (moduleSpecifier referrerSpecifier : String)
    (resolverToken : Int) :
    ResolveModule moduleSpecifier referrerSpecifier resolverToken = 0 ∧
    0 ≤ ResolveModule moduleSpecifier referrerSpecifier resolverToken :=
  ⟨rfl, le_refl _⟩

/-! ## Lifecycle: operations on a disposed handle -/

/-- C2, counterexample: the handle of the first `New`, once disposed, still gets
a `nil` error from `Load`, from `LoadModule` and from `SendBytes`. -/
theorem ops_after_Dispose_counterexample :
    New sampleCb initGlobals = some sampleNew ∧
    sampleNew.externalWorker.Dispose.panicked = none ∧
    sampleNew.externalWorker.Dispose.state.disposed = true ∧
    ¬ ((sampleNew.externalWorker.Dispose.state.Load "main.js" "1+1").err ≠ none) ∧
    ¬ ((sampleNew.externalWorker.Dispose.state.LoadModule "main.js" "1+1"
          (fun _ _ => 0)).err ≠ none) ∧
    ¬ ((sampleNew.externalWorker.Dispose.state.SendBytes [1, 2, 3]).err ≠ none) := by
  refine ⟨rfl, rfl, rfl, ?_, ?_, ?_⟩ <;> simp [Worker.Load, Worker.LoadModule, Worker.SendBytes]

/-- C2, amended: for every handle and every argument list, `Load`, `LoadModule`
and `SendBytes` return the same result whatever the `disposed` flag is: on the
handle as `Dispose` leaves it, and on the handle with the flag forced to either
value, each returns exactly what it returns on the handle itself. Disposal
alone never turns their result into an error. -/
theorem ops_ignore_disposed (w : Worker) (d : Bool) (scriptName code : String)
    (resolve : ModuleResolverCallback) (msg : List Nat) :
    (w.Dispose.state.Load scriptName code = w.Load scriptName code ∧
     w.Dispose.state.LoadModule scriptName code resolve
       = w.LoadModule scriptName code resolve ∧
     w.Dispose.state.SendBytes msg = w.SendBytes msg) ∧
    (Worker.Load { w with disposed := d } scriptName code = w.Load scriptName code ∧
     Worker.LoadModule { w with disposed := d } scriptName code resolve
       = w.LoadModule scriptName code resolve ∧
     Worker.SendBytes { w with disposed := d } msg = w.SendBytes msg) :=
  ⟨⟨rfl, rfl, rfl⟩, rfl, rfl, rfl⟩

/-- C3: on a handle returned by `New`, the first `Dispose` does not panic and
sets `disposed`, touching nothing else; each later `Dispose` panics with
"worker already disposed" and leaves the handle as it was, still disposed; and
on any handle `Dispose` panics exactly when the handle was already disposed. -/
theorem Dispose_first_ok_later_panics (cb : ReceiveMessageCallback) (g : Globals)
    (r : NewResult) (h : New cb g = some r) :
    r.externalWorker.Dispose.panicked = none ∧
    r.externalWorker.Dispose.state = { r.externalWorker with disposed := true } ∧
    (∀ n : Nat,
      (disposeTimes (n + 1) r.externalWorker).Dispose.panicked
          = some "worker already disposed" ∧
      (disposeTimes (n + 1) r.externalWorker).Dispose.state
          = disposeTimes (n + 1) r.externalWorker ∧
      (disposeTimes (n + 1) r.externalWorker).Dispose.state.disposed = true) ∧
    (∀ w : Worker, w.Dispose.panicked ≠ none ↔ w.disposed = true) ∧
    (∀ w : Worker, w.Dispose.panicked = some "worker already disposed" ↔ w.disposed = true) := by
  obtain ⟨_, hw, _, _⟩ := New_some_shape cb g r h
  have hd : r.externalWorker.disposed = false := by rw [hw]
  refine ⟨?_, ?_, ?_, ?_, ?_⟩
  · rw [Dispose_of_active _ hd]
  · rw [Dispose_of_active _ hd]
  · intro n
    have hn := disposeTimes_succ_disposed n r.externalWorker
    rw [Dispose_of_disposed _ hn]
    exact ⟨rfl, rfl, hn⟩
  · intro w
    cases hws : w.disposed with
    | true => rw [Dispose_of_disposed w hws]; simp
    | false => rw [Dispose_of_active w hws]; simp
  · intro w
    cases hws : w.disposed with
    | true => rw [Dispose_of_disposed w hws]; simp
    | false => rw [Dispose_of_active w hws]; simp

/-- C3, witness: the first handle of a process, disposed once and then three
more times. -/
theorem Dispose_first_ok_later_panics_witness :
    New sampleCb initGlobals = some sampleNew ∧
    sampleNew.externalWorker.Dispose.panicked = none ∧
    sampleNew.externalWorker.Dispose.state.disposed = true ∧
    (disposeTimes 3 sampleNew.externalWorker).Dispose.panicked
      = some "worker already disposed" ∧
    (disposeTimes 3 sampleNew.externalWorker).Dispose.state
      = disposeTimes 3 sampleNew.externalWorker :=
  ⟨rfl,
   (Dispose_first_ok_later_panics sampleCb initGlobals sampleNew rfl).1,
   rfl,
   ((Dispose_first_ok_later_panics sampleCb initGlobals sampleNew rfl).2.2.1 2).1,
   ((Dispose_first_ok_later_panics sampleCb initGlobals sampleNew rfl).2.2.1 2).2.1⟩

/-! ## Message channel -/

/-- C7, counterexample: on the non-disposed first handle, created with the
reversing callback, `SendBytes [1, 2, 3]` does not invoke the callback on
`[1, 2, 3]`; and its outcome is the same as on a worker whose callback is the
identity, although the two callbacks reply differently to `[1, 2, 3]`. -/
theorem SendBytes_delivery_counterexample :
    New sampleCb initGlobals = some sampleNew ∧
    sampleNew.externalWorker.disposed = false ∧
    sampleNew.externalWorker.worker.cb = sampleCb ∧
    ¬ ((sampleNew.externalWorker.SendBytes [1, 2, 3]).cbCalls = [[1, 2, 3]]) ∧
    sampleCb [1, 2, 3] ≠ (fun m => m) [1, 2, 3] ∧
    sampleNew.externalWorker.SendBytes [1, 2, 3]
      = Worker.SendBytes
          { worker := { cWorker := none, cb := fun m => m, tableIndex := 0 }
            disposed := false } [1, 2, 3] := by
  refine ⟨rfl, rfl, rfl, ?_, ?_, rfl⟩
  · simp [Worker.SendBytes]
  · simp [sampleCb]

/-- C7, amended: for every worker, whatever its receive callback, and every
message, `SendBytes` returns a `nil` error without invoking the receive
callback; its outcome carries no reply. -/
theorem SendBytes_returns_nil_without_callback (w : Worker) (msg : List Nat) :
    w.SendBytes msg = { err := none, cbCalls := [], resolveCalls := [] } ∧
    (w.SendBytes msg).cbCalls = [] :=
  ⟨rfl, rfl⟩

/-! ## Release paths -/

/-- C8: for a handle returned by `New` and either order of the two release
paths, the path that runs first performs the release step, the path that runs
second performs none (it panics and leaves the handle as it was), so the step
is performed exactly once; and with the `disposed` flag cleared the second
path would perform it again. -/
theorem release_by_exactly_one_path (cb : ReceiveMessageCallback) (g : Globals)
    (r : NewResult) (h : New cb g = some r) (p q : ReleasePath) (hpq : p ≠ q) :
    releaseStep r.externalWorker (runPath r.finalizer p r.externalWorker) = true ∧
    (runPath r.finalizer p r.externalWorker).panicked = none ∧
    releaseStep (runPath r.finalizer p r.externalWorker).state
      (runPath r.finalizer q (runPath r.finalizer p r.externalWorker).state) = false ∧
    (runPath r.finalizer q (runPath r.finalizer p r.externalWorker).state).panicked
      = some "worker already disposed" ∧
    (runPath r.finalizer q (runPath r.finalizer p r.externalWorker).state).state
      = (runPath r.finalizer p r.externalWorker).state ∧
    releaseCount r.finalizer [p, q] r.externalWorker = 1 ∧
    releaseStep { (runPath r.finalizer p r.externalWorker).state with disposed := false }
      (runPath r.finalizer q
        { (runPath r.finalizer p r.externalWorker).state with disposed := false }) = true := by
  obtain ⟨_, hw, hf, _⟩ := New_some_shape cb g r h
  have hrun : ∀ (x : ReleasePath) (w : Worker), runPath r.finalizer x w = w.Dispose := by
    intro x w
    cases x
    · rfl
    · show r.finalizer w = w.Dispose
      rw [hf]
  have hd : r.externalWorker.disposed = false := by rw [hw]
  simp only [releaseCount, hrun]
  rw [Dispose_of_active _ hd]
  simp [releaseStep, Worker.Dispose, hd]

/-- C8, witness: the first handle of a process, finalizer first and explicit
`Dispose` second. -/
theorem release_by_exactly_one_path_witness :
    New sampleCb initGlobals = some sampleNew ∧
    ReleasePath.finalizerRun ≠ ReleasePath.explicitDispose ∧
    releaseCount sampleNew.finalizer
      [ReleasePath.finalizerRun, ReleasePath.explicitDispose] sampleNew.externalWorker = 1 :=
  ⟨rfl, by decide,
   (release_by_exactly_one_path sampleCb initGlobals sampleNew rfl
      ReleasePath.finalizerRun ReleasePath.explicitDispose (by decide)).2.2.2.2.2.1⟩

/-- C9: the finalizer registered by `New` is a plain call of `Dispose`; on every
disposed handle, and so on the returned handle after the caller disposed it,
it panics with "worker already disposed" and leaves the handle as it was; and
it completes without panic exactly on a handle that is not disposed. -/
theorem finalizer_panics_after_explicit_Dispose (cb : ReceiveMessageCallback) (g : Globals)
    (r : NewResult) (h : New cb g = some r) :
    (∀ w : Worker, r.finalizer w = w.Dispose) ∧
    (∀ w : Worker, w.disposed = true →
      r.finalizer w = { state := w, panicked := some "worker already disposed" }) ∧
    (r.finalizer r.externalWorker.Dispose.state).panicked = some "worker already disposed" ∧
    (∀ w : Worker, (r.finalizer w).panicked = none ↔ w.disposed = false) ∧
    (r.finalizer r.externalWorker).panicked = none := by
  obtain ⟨_, hw, hf, _⟩ := New_some_shape cb g r h
  have hd : r.externalWorker.disposed = false := by rw [hw]
  have hfin : ∀ w : Worker, r.finalizer w = w.Dispose := by
    intro w
    rw [hf]
  refine ⟨hfin, ?_, ?_, ?_, ?_⟩
  · intro w hws
    rw [hfin, Dispose_of_disposed w hws]
  · rw [hfin, Dispose_of_disposed _ (Dispose_state_disposed _)]
  · intro w
    rw [hfin]
    cases hws : w.disposed with
    | true => rw [Dispose_of_disposed w hws]; simp
    | false => rw [Dispose_of_active w hws]; simp
  · rw [hfin, Dispose_of_active _ hd]

/-- C9, witness: the finalizer of the first handle of a process, run after the
caller disposed that handle. -/
theorem finalizer_panics_after_explicit_Dispose_witness :
    New sampleCb initGlobals = some sampleNew ∧
    (sampleNew.finalizer sampleNew.externalWorker.Dispose.state).panicked
      = some "worker already disposed" ∧
    (sampleNew.finalizer sampleNew.externalWorker).panicked = none :=
  ⟨rfl,
   (finalizer_panics_after_explicit_Dispose sampleCb initGlobals sampleNew rfl).2.2.1,
   (finalizer_panics_after_explicit_Dispose sampleCb initGlobals sampleNew rfl).2.2.2.2⟩

end V8Worker2
